import Mathlib

/-!
Verification of the implied-forward-rate calculator (src/src/App.jsx).

The computational core of the application is two pure functions:
* `calculateForwardRates` (App.jsx lines 70-138): derives the implied one-year
  forward rate from one-year and two-year spot rates, compares two investment
  strategies, and builds a three-period cash-flow dataset for charting.
* `validateInputs` (App.jsx lines 294-314): per-field bound checks plus a
  yield-curve advisory.

All arithmetic in the rate variant is `+ * / pow abs` on numbers, embedded here
over `ℚ` (exact arithmetic).  The renderer's gating of the model
(App.jsx lines 320-324) is embedded as `rendererModel`.  The FX variant
described in the design document is not present in this source tree and is
modelled from the specification text over `ℝ` (it uses `exp`).
-/

namespace ForwardRates

/-- Inputs of the interest-rate variant: percentages, as entered in the form. -/
structure RateInputs where
  oneYearRate : ℚ
  twoYearRate : ℚ

/-- One record of the chart dataset (App.jsx lines 91-126).  JavaScript `null`
and absent keys are both embedded as `none`. -/
structure CashFlowRecord where
  period : ℕ
  periodLabel : String
  subsequentInvestment : Option ℚ
  subsequentMaturity : Option ℚ
  subsequentReinvestment : Option ℚ
  twoYearInvestment : Option ℚ
  oneYearBondYield : Option ℚ
  impliedForwardRate : Option ℚ
  twoYearLine : ℚ
  twoYearLineLabel : Option ℚ

/-- Output of `calculateForwardRates` (App.jsx lines 128-137). -/
structure ForwardRateModel where
  forwardRate : ℚ
  strategy1Final : ℚ
  strategy2Final : ℚ
  strategy1Year1Value : ℚ
  arbitrageDiff : ℚ
  noArbitrage : Bool
  cashFlowData : List CashFlowRecord
  isValid : Bool

/-- Embedding of `calculateForwardRates` (App.jsx lines 70-138). -/
def calculateForwardRates (inputs : RateInputs) : ForwardRateModel :=
  let r1 := inputs.oneYearRate / 100
  let r2 := inputs.twoYearRate / 100
  let forwardRate := (1 + r2) ^ 2 / (1 + r1) - 1
  let forwardRatePct := forwardRate * 100
  let strategy1Year1 := 100 * (1 + r1)
  let strategy1Year2 := strategy1Year1 * (1 + forwardRate)
  let strategy2Year2 := 100 * (1 + r2) ^ 2
  let arbitrageDiff := |strategy1Year2 - strategy2Year2|
  let noArbitrage := decide (arbitrageDiff < 0.001)
  let cashFlowData : List CashFlowRecord :=
    [{ period := 0
       periodLabel := "0"
       subsequentInvestment := some (-100)
       subsequentMaturity := none
       subsequentReinvestment := none
       twoYearInvestment := some (-100)
       oneYearBondYield := none
       impliedForwardRate := none
       twoYearLine := r2 * 100
       twoYearLineLabel := some (r2 * 100) },
     { period := 1
       periodLabel := "1"
       subsequentInvestment := none
       subsequentMaturity := some strategy1Year1
       subsequentReinvestment := some (-strategy1Year1)
       twoYearInvestment := some 0
       oneYearBondYield := some (r1 * 100)
       impliedForwardRate := none
       twoYearLine := r2 * 100
       twoYearLineLabel := none },
     { period := 2
       periodLabel := "2"
       subsequentInvestment := some strategy1Year2
       subsequentMaturity := none
       subsequentReinvestment := none
       twoYearInvestment := some strategy2Year2
       oneYearBondYield := none
       impliedForwardRate := some forwardRatePct
       twoYearLine := r2 * 100
       twoYearLineLabel := none }]
  { forwardRate := forwardRatePct
    strategy1Final := strategy1Year2
    strategy2Final := strategy2Year2
    strategy1Year1Value := strategy1Year1
    arbitrageDiff := arbitrageDiff
    noArbitrage := noArbitrage
    cashFlowData := cashFlowData
    isValid := decide (r1 > 0 ∧ r2 > 0 ∧ r1 < 0.5 ∧ r2 < 0.5) }

def oneYearPositiveMsg : String := "One-year rate must be positive"

def oneYearExceedMsg : String := "One-year rate cannot exceed 50%"

def twoYearPositiveMsg : String := "Two-year rate must be positive"

def twoYearExceedMsg : String := "Two-year rate cannot exceed 50%"

def yieldCurveMsg : String :=
  "Two-year rate should typically be higher than one-year rate for normal yield curve"

/-- The `errors` object of `validateInputs`: one optional message per key. -/
structure ValidationResult where
  oneYearRate : Option String
  twoYearRate : Option String
  yieldCurve : Option String

/-- Embedding of `validateInputs` (App.jsx lines 294-314).  JavaScript
`!inputs.oneYearRate` is falsy exactly at zero for a present number, so the
first branch fires when the rate is zero or negative. -/
def validateInputs (inputs : RateInputs) : ValidationResult :=
  let oneErr : Option String :=
    if inputs.oneYearRate = 0 ∨ inputs.oneYearRate < 0 then some oneYearPositiveMsg
    else if inputs.oneYearRate > 50 then some oneYearExceedMsg
    else none
  let twoErr : Option String :=
    if inputs.twoYearRate = 0 ∨ inputs.twoYearRate < 0 then some twoYearPositiveMsg
    else if inputs.twoYearRate > 50 then some twoYearExceedMsg
    else none
  let ycErr : Option String :=
    if inputs.twoYearRate > 0 ∧ inputs.oneYearRate > 0 ∧
        inputs.twoYearRate ≤ inputs.oneYearRate
    then some yieldCurveMsg
    else none
  { oneYearRate := oneErr, twoYearRate := twoErr, yieldCurve := ycErr }

/-- `Object.keys(inputErrors).length > 0` on the validation result. -/
def hasAnyError (v : ValidationResult) : Bool :=
  v.oneYearRate.isSome || v.twoYearRate.isSome || v.yieldCurve.isSome

/-- Embedding of the renderer's model computation (App.jsx lines 320-324):
the model is computed only when the validation result is empty. -/
def rendererModel (inputs : RateInputs) : Option ForwardRateModel :=
  if hasAnyError (validateInputs inputs) then none
  else some (calculateForwardRates inputs)

-- Basic unfolding lemmas for the model's fields.

theorem forwardRate_eq (inputs : RateInputs) :
    (calculateForwardRates inputs).forwardRate
      = ((1 + inputs.twoYearRate / 100) ^ 2 / (1 + inputs.oneYearRate / 100) - 1) * 100 :=
  rfl

theorem strategy1Final_eq (inputs : RateInputs) :
    (calculateForwardRates inputs).strategy1Final
      = 100 * (1 + inputs.oneYearRate / 100) *
          (1 + ((1 + inputs.twoYearRate / 100) ^ 2 / (1 + inputs.oneYearRate / 100) - 1)) :=
  rfl

theorem strategy2Final_eq (inputs : RateInputs) :
    (calculateForwardRates inputs).strategy2Final
      = 100 * (1 + inputs.twoYearRate / 100) ^ 2 :=
  rfl

theorem arbitrageDiff_eq (inputs : RateInputs) :
    (calculateForwardRates inputs).arbitrageDiff
      = |(calculateForwardRates inputs).strategy1Final
          - (calculateForwardRates inputs).strategy2Final| :=
  rfl

theorem noArbitrage_eq (inputs : RateInputs) :
    (calculateForwardRates inputs).noArbitrage
      = decide ((calculateForwardRates inputs).arbitrageDiff < 0.001) :=
  rfl

/-- The two strategies agree exactly in rational arithmetic whenever the
divisor `1 + r1` is nonzero. -/
theorem arbitrageDiff_eq_zero (inputs : RateInputs)
    (h : 1 + inputs.oneYearRate / 100 ≠ 0) :
    (calculateForwardRates inputs).arbitrageDiff = 0 := by
  rw [arbitrageDiff_eq, strategy1Final_eq, strategy2Final_eq, abs_eq_zero, sub_eq_zero]
  have key : (1 + inputs.twoYearRate / 100) ^ 2 / (1 + inputs.oneYearRate / 100) *
      (1 + inputs.oneYearRate / 100) = (1 + inputs.twoYearRate / 100) ^ 2 :=
    div_mul_cancel₀ _ h
  linear_combination (100 : ℚ) * key

theorem isValid_eq (inputs : RateInputs) :
    (calculateForwardRates inputs).isValid
      = decide (inputs.oneYearRate / 100 > 0 ∧ inputs.twoYearRate / 100 > 0 ∧
          inputs.oneYearRate / 100 < 0.5 ∧ inputs.twoYearRate / 100 < 0.5) :=
  rfl

/-- C1: for every pair of rates whose decimal forms `r1 = oneYearRate/100` and
`r2 = twoYearRate/100` lie in the open interval `(0, 0.5)`, the model returned
by `calculateForwardRates` satisfies `arbitrageDiff < 0.001` and
`noArbitrage = true`. -/
theorem no_arbitrage_valid_domain (inputs : RateInputs)
    (h1 : 0 < inputs.oneYearRate / 100) (h2 : inputs.oneYearRate / 100 < 0.5)
    (h3 : 0 < inputs.twoYearRate / 100) (h4 : inputs.twoYearRate / 100 < 0.5) :
    (calculateForwardRates inputs).arbitrageDiff < 0.001 ∧
      (calculateForwardRates inputs).noArbitrage = true := by
  have hne : 1 + inputs.oneYearRate / 100 ≠ 0 := ne_of_gt (by linarith)
  have hz := arbitrageDiff_eq_zero inputs hne
  refine ⟨?_, ?_⟩
  · rw [hz]; norm_num
  · rw [noArbitrage_eq, hz]
    simp only [decide_eq_true_eq]
    norm_num

/-- Witness for C1 at `oneYearRate = 6.30`, `twoYearRate = 8.00`. -/
theorem no_arbitrage_valid_domain_witness :
    ((0 : ℚ) < (63 / 10 : ℚ) / 100 ∧ (63 / 10 : ℚ) / 100 < 0.5 ∧
      (0 : ℚ) < (8 : ℚ) / 100 ∧ (8 : ℚ) / 100 < 0.5) ∧
    ((calculateForwardRates ⟨63 / 10, 8⟩).arbitrageDiff < 0.001 ∧
      (calculateForwardRates ⟨63 / 10, 8⟩).noArbitrage = true) :=
  ⟨⟨by norm_num, by norm_num, by norm_num, by norm_num⟩,
    no_arbitrage_valid_domain ⟨63 / 10, 8⟩ (by norm_num) (by norm_num)
      (by norm_num) (by norm_num)⟩

/-- C2 counterexample: at `oneYearRate = 6.30`, `twoYearRate = 8.00` the
`forwardRate` field is the percentage `9.7272...`, not the decimal value
`(1+r2)^2/(1+r1) - 1 = 0.097272...` that the claim states. -/
theorem forwardRate_decimal_formula_cex :
    (calculateForwardRates ⟨63 / 10, 8⟩).forwardRate
      ≠ (1 + (8 : ℚ) / 100) ^ 2 / (1 + (63 / 10 : ℚ) / 100) - 1 := by
  rw [forwardRate_eq]
  norm_num

/-- C2 amended: the `forwardRate` field equals `100 * ((1+r2)^2/(1+r1) - 1)`,
the percentage form of the closed-form formula, exactly. -/
theorem forwardRate_percent_formula (inputs : RateInputs) :
    (calculateForwardRates inputs).forwardRate
      = 100 * ((1 + inputs.twoYearRate / 100) ^ 2 / (1 + inputs.oneYearRate / 100) - 1) := by
  rw [forwardRate_eq]; ring

/-- C3 counterexample: at `oneYearRate = 8`, `twoYearRate = 6` the validation
result holds only the `yieldCurve` advisory, yet the renderer's gate
(`Object.keys(inputErrors).length > 0`, App.jsx line 322) returns no model:
the advisory DOES block the computation, contrary to the claim. -/
theorem advisory_blocks_model_cex :
    (validateInputs ⟨8, 6⟩).oneYearRate = none ∧
    (validateInputs ⟨8, 6⟩).twoYearRate = none ∧
    (validateInputs ⟨8, 6⟩).yieldCurve = some yieldCurveMsg ∧
    rendererModel ⟨8, 6⟩ = none := by
  refine ⟨?_, ?_, ?_, ?_⟩
  · norm_num [validateInputs]
  · norm_num [validateInputs]
  · norm_num [validateInputs]
  · norm_num [rendererModel, hasAnyError, validateInputs]

/-- C3 amended: at `oneYearRate = 8`, `twoYearRate = 6` the validation result
contains the `yieldCurve` key and no hard-bound error keys, and
`calculateForwardRates` remains directly callable on these inputs (it is total
and even reports `isValid = true`); however the renderer does NOT ignore the
advisory key: it declines to compute the model whenever any key, the advisory
included, is present. -/
theorem advisory_soft_but_gating :
    (validateInputs ⟨8, 6⟩).oneYearRate = none ∧
    (validateInputs ⟨8, 6⟩).twoYearRate = none ∧
    (validateInputs ⟨8, 6⟩).yieldCurve.isSome = true ∧
    (calculateForwardRates ⟨8, 6⟩).isValid = true ∧
    rendererModel ⟨8, 6⟩ = none := by
  refine ⟨?_, ?_, ?_, ?_, ?_⟩
  · norm_num [validateInputs]
  · norm_num [validateInputs]
  · norm_num [validateInputs]
  · rw [isValid_eq]; simp only [decide_eq_true_eq]; norm_num
  · norm_num [rendererModel, hasAnyError, validateInputs]

/-- C4: for `oneYearRate = 6.30`, `twoYearRate = 8.00` the model reports a
forward rate of about `9.73` percent, both strategies end at about `116.64`,
`isValid = true`, and the chart dataset has three entries with periods
`0, 1, 2`. -/
theorem concrete_scenario_63_8 :
    |(calculateForwardRates ⟨63 / 10, 8⟩).forwardRate - 9.73| < 0.01 ∧
    |(calculateForwardRates ⟨63 / 10, 8⟩).strategy1Final - 116.64| < 0.01 ∧
    |(calculateForwardRates ⟨63 / 10, 8⟩).strategy2Final - 116.64| < 0.01 ∧
    (calculateForwardRates ⟨63 / 10, 8⟩).isValid = true ∧
    (calculateForwardRates ⟨63 / 10, 8⟩).cashFlowData.map CashFlowRecord.period
      = [0, 1, 2] := by
  refine ⟨?_, ?_, ?_, ?_, ?_⟩
  · rw [forwardRate_eq, abs_lt]; norm_num
  · rw [strategy1Final_eq, abs_lt]; norm_num
  · rw [strategy2Final_eq, abs_lt]; norm_num
  · rw [isValid_eq]; simp only [decide_eq_true_eq]; norm_num
  · simp [calculateForwardRates]

/-- C5: the validator's bound checks for the one-year field sit exactly at
`0` and `50`: a zero rate is rejected as non-positive, `50.01` is rejected as
exceeding the ceiling, and `50` itself passes with no hard error, whatever
the other field holds. -/
theorem validation_boundary_bounds (t : ℚ) :
    (validateInputs ⟨0, t⟩).oneYearRate = some oneYearPositiveMsg ∧
    (validateInputs ⟨5001 / 100, t⟩).oneYearRate = some oneYearExceedMsg ∧
    (validateInputs ⟨50, t⟩).oneYearRate = none := by
  refine ⟨?_, ?_, ?_⟩
  · norm_num [validateInputs]
  · norm_num [validateInputs]
  · norm_num [validateInputs]

/-- C6: holding `oneYearRate` fixed with `1 + oneYearRate/100 > 0`, the
`forwardRate` field is strictly increasing in `twoYearRate` over the
admissible domain `twoYearRate ≥ -100`. -/
theorem forwardRate_strict_mono (o a b : ℚ)
    (ho : 0 < 1 + o / 100) (ha : -100 ≤ a) (hab : a < b) :
    (calculateForwardRates ⟨o, a⟩).forwardRate
      < (calculateForwardRates ⟨o, b⟩).forwardRate := by
  rw [forwardRate_eq, forwardRate_eq]
  have hb1 : (0 : ℚ) ≤ 1 + a / 100 := by linarith
  have hb2 : 1 + a / 100 < 1 + b / 100 := by linarith
  have hsq : (1 + a / 100) ^ 2 < (1 + b / 100) ^ 2 := by nlinarith
  have hdiv : (1 + a / 100) ^ 2 / (1 + o / 100)
      < (1 + b / 100) ^ 2 / (1 + o / 100) := by
    exact (div_lt_div_iff_of_pos_right ho).mpr hsq
  linarith

/-- Witness for C6 at `oneYearRate = 6.30`, `twoYearRate` values `7 < 8`. -/
theorem forwardRate_strict_mono_witness :
    ((0 : ℚ) < 1 + (63 / 10 : ℚ) / 100 ∧ (-100 : ℚ) ≤ 7 ∧ (7 : ℚ) < 8) ∧
    (calculateForwardRates ⟨63 / 10, 7⟩).forwardRate
      < (calculateForwardRates ⟨63 / 10, 8⟩).forwardRate :=
  ⟨⟨by norm_num, by norm_num, by norm_num⟩,
    forwardRate_strict_mono (63 / 10) 7 8 (by norm_num) (by norm_num) (by norm_num)⟩

/-- C7: on a flat curve `oneYearRate = twoYearRate = x` (with the divisor
`1 + x/100` nonzero) the `forwardRate` field degenerates exactly to `x`. -/
theorem flat_curve_forwardRate (x : ℚ) (h : 1 + x / 100 ≠ 0) :
    (calculateForwardRates ⟨x, x⟩).forwardRate = x := by
  rw [forwardRate_eq]
  have key : (1 + x / 100) ^ 2 / (1 + x / 100) = 1 + x / 100 := by
    rw [sq]
    exact mul_div_cancel_right₀ _ h
  rw [key]; ring

/-- Witness for C7 at `x = 5`. -/
theorem flat_curve_forwardRate_witness :
    ((1 : ℚ) + 5 / 100 ≠ 0) ∧ (calculateForwardRates ⟨5, 5⟩).forwardRate = 5 :=
  ⟨by norm_num, flat_curve_forwardRate 5 (by norm_num)⟩

/-- C9: in exact arithmetic the no-arbitrage flag is independent of validity:
for every input with `oneYearRate ≠ -100` the model has `arbitrageDiff = 0`
and `noArbitrage = true`, whether or not `isValid` holds. -/
theorem arbitrage_zero_any_inputs (inputs : RateInputs)
    (h : inputs.oneYearRate ≠ -100) :
    (calculateForwardRates inputs).arbitrageDiff = 0 ∧
      (calculateForwardRates inputs).noArbitrage = true := by
  have hne : 1 + inputs.oneYearRate / 100 ≠ 0 := by
    intro hc
    exact h (by linarith)
  have hz := arbitrageDiff_eq_zero inputs hne
  refine ⟨hz, ?_⟩
  rw [noArbitrage_eq, hz]
  simp only [decide_eq_true_eq]
  norm_num

/-- Witness for C9 at the invalid input `oneYearRate = -5`,
`twoYearRate = 60`, where `isValid = false` yet the arbitrage check holds. -/
theorem arbitrage_zero_any_inputs_witness :
    ((⟨-5, 60⟩ : RateInputs).oneYearRate ≠ -100) ∧
    ((calculateForwardRates ⟨-5, 60⟩).arbitrageDiff = 0 ∧
      (calculateForwardRates ⟨-5, 60⟩).noArbitrage = true) ∧
    (calculateForwardRates ⟨-5, 60⟩).isValid = false :=
  ⟨by norm_num, arbitrage_zero_any_inputs ⟨-5, 60⟩ (by norm_num),
    by rw [isValid_eq]; simp only [decide_eq_false_iff_not]; norm_num⟩

/-- C10: structural invariant of the chart dataset: for every input,
`cashFlowData` is exactly three records with periods `0, 1, 2`; every record's
`twoYearLine` equals the `twoYearRate` input; the period-0 record shows both
initial outflows of `-100`; and the period-1 record shows a zero two-year cash
flow together with maturity and reinvestment values summing to zero. -/
theorem cashFlowData_invariants (inputs : RateInputs) :
    ∃ c0 c1 c2 : CashFlowRecord,
      (calculateForwardRates inputs).cashFlowData = [c0, c1, c2] ∧
      c0.period = 0 ∧ c1.period = 1 ∧ c2.period = 2 ∧
      c0.twoYearLine = inputs.twoYearRate ∧
      c1.twoYearLine = inputs.twoYearRate ∧
      c2.twoYearLine = inputs.twoYearRate ∧
      c0.subsequentInvestment = some (-100) ∧
      c0.twoYearInvestment = some (-100) ∧
      c1.twoYearInvestment = some 0 ∧
      ∃ m r : ℚ, c1.subsequentMaturity = some m ∧
        c1.subsequentReinvestment = some r ∧ m + r = 0 := by
  refine ⟨_, _, _, rfl, rfl, rfl, rfl, ?_, ?_, ?_, rfl, rfl, rfl,
    100 * (1 + inputs.oneYearRate / 100), -(100 * (1 + inputs.oneYearRate / 100)),
    rfl, rfl, by ring⟩
  all_goals
    show inputs.twoYearRate / 100 * 100 = inputs.twoYearRate
    ring

/-- Output of the FX variant of the model, as described by the design
document. -/
structure FXModel where
  forwardRate : ℝ
  domesticEndingValue : ℝ
  foreignEndingValue : ℝ
  domesticEquivalent : ℝ
  arbitrageDiff : ℝ

/-- Modelled from the spec: the FX variant `computeForwardExchangeRate` is not
present in this source tree (only the interest-rate page is under src/); the
definition follows the specification's words: covered interest rate parity with
continuous compounding, `forwardRate = spotRate * exp(foreignRate/100 -
domesticRate/100)`; strategy A invests the notional (100) domestically at the
domestic rate; strategy B converts at spot, invests at the foreign rate, and
converts back at the forward rate (`domesticEquivalent = foreignEndingValue /
forwardRate`); `arbitrageDiff` compares `domesticEndingValue` with
`domesticEquivalent`. -/
noncomputable def computeForwardExchangeRate
    (spotRate domesticRate foreignRate : ℝ) : FXModel :=
  let forwardRate := spotRate * Real.exp (foreignRate / 100 - domesticRate / 100)
  let domesticEndingValue := 100 * Real.exp (domesticRate / 100)
  let foreignEndingValue := 100 * spotRate * Real.exp (foreignRate / 100)
  let domesticEquivalent := foreignEndingValue / forwardRate
  { forwardRate := forwardRate
    domesticEndingValue := domesticEndingValue
    foreignEndingValue := foreignEndingValue
    domesticEquivalent := domesticEquivalent
    arbitrageDiff := |domesticEndingValue - domesticEquivalent| }

theorem exp_small_lower : (1.0007 : ℝ) ≤ Real.exp 0.0007 := by
  have h := Real.add_one_le_exp (0.0007 : ℝ)
  linarith

theorem exp_small_upper : Real.exp 0.0007 ≤ 1 / 0.9993 := by
  have h1 : (0.9993 : ℝ) ≤ Real.exp (-0.0007) := by
    have h := Real.add_one_le_exp (-0.0007 : ℝ)
    linarith
  have h2 : (0.9993 : ℝ) * Real.exp 0.0007
      ≤ Real.exp (-0.0007) * Real.exp 0.0007 :=
    mul_le_mul_of_nonneg_right h1 (Real.exp_pos _).le
  rw [← Real.exp_add] at h2
  norm_num [Real.exp_zero] at h2
  rw [le_div_iff₀ (by norm_num : (0 : ℝ) < 0.9993)]
  linarith

/-- When the spot rate is nonzero, converting back at the parity forward rate
recovers the domestic ending value exactly. -/
theorem fx_domesticEquivalent_eq (s d f : ℝ) (hs : s ≠ 0) :
    (computeForwardExchangeRate s d f).domesticEquivalent
      = (computeForwardExchangeRate s d f).domesticEndingValue := by
  show 100 * s * Real.exp (f / 100) / (s * Real.exp (f / 100 - d / 100))
      = 100 * Real.exp (d / 100)
  rw [Real.exp_sub]
  have he : Real.exp (d / 100) ≠ 0 := Real.exp_ne_zero _
  have hf : Real.exp (f / 100) ≠ 0 := Real.exp_ne_zero _
  field_simp
  ring

/-- C8: the FX variant computes `forwardRate = spotRate * exp(foreignRate/100
- domesticRate/100)`, and at `spotRate = 1.2602`, `domesticRate = 2.360`,
`foreignRate = 2.430` the forward rate is about `1.2611` while the domestic
ending value matches the round-trip domestic equivalent within `0.01`. -/
theorem fx_variant_spec :
    (∀ s d f : ℝ, (computeForwardExchangeRate s d f).forwardRate
        = s * Real.exp (f / 100 - d / 100)) ∧
    |(computeForwardExchangeRate 1.2602 2.36 2.43).forwardRate - 1.2611| < 0.001 ∧
    |(computeForwardExchangeRate 1.2602 2.36 2.43).domesticEndingValue
        - (computeForwardExchangeRate 1.2602 2.36 2.43).domesticEquivalent| < 0.01 := by
  refine ⟨fun s d f => rfl, ?_, ?_⟩
  · have hfr : (computeForwardExchangeRate 1.2602 2.36 2.43).forwardRate
        = 1.2602 * Real.exp 0.0007 := by
      show (1.2602 : ℝ) * Real.exp (2.43 / 100 - 2.36 / 100) = _
      norm_num
    rw [hfr, abs_lt]
    have hu := exp_small_upper
    have hl := exp_small_lower
    have hc : (1 : ℝ) / 0.9993 < 1.00071 := by norm_num
    constructor <;> linarith
  · rw [fx_domesticEquivalent_eq 1.2602 2.36 2.43 (by norm_num)]
    norm_num

end ForwardRates
